import Mathlib

/-!
Shallow embedding of tensor2robot predictors/saved_model_v2_predictor.py.

The file defines the state of SavedModelPredictorBase and its two
subclasses, translates each method into a Lean function (Python
exceptions become an Except value; every method returns its post-state
explicitly, so frame properties are provable), and proves the claims
about the module.

External collaborators (the filesystem, the TF runtime, the parsed
t2r_assets file) are modelled by a World structure: the code only
observes them through the calls that appear in the source, so the
functions the World carries stand for those observations.
-/

namespace T2R

/-- Python exceptions that the module can raise: ValueError raised
explicitly by the code, AttributeError raised on reading an attribute
that was never assigned, TypeError raised by library calls on
structurally invalid arguments. -/
inductive PyErr where
  | valueError (msg : String)
  | attributeError (msg : String)
  | typeError (msg : String)
deriving Repr, DecidableEq

/-- A tensor-like value (numpy array, TF placeholder or TF tensor).
Python is duck-typed: the module only reads the shape, so the payload
field stands opaquely for the tensor contents/identity.  A dimension is
some n for a known extent and none for an unknown extent (numpy shapes
are all-known; a placeholder built with batch_size None has a leading
none). -/
structure TensorLike where
  shape : List (Option Nat)
  payload : Nat
deriving Repr, DecidableEq

/-- One entry of a TensorSpecStruct: the module only reads
spec.shape.as_list(), a list of known or unknown dimensions. -/
structure TensorSpec where
  shape : List (Option Nat)
deriving Repr, DecidableEq

/-- A named mapping, as the module uses dicts: tf.nest.map_structure
iterates dict keys in a fixed (sorted) order, so an association list in
that order is a faithful picture. -/
abbrev NamedMap (α : Type) := List (String × α)

/-- The object returned by tf.saved_model.load: the module calls its
predict function on a feature mapping and its global_step method. -/
structure LoadedModel where
  pred : NamedMap TensorLike → NamedMap TensorLike
  globalStepT : TensorLike

/-- The fields assigned in SavedModelPredictorBase.__init__
(saved_model_path, timeout, _model, _feature_spec, _label_spec).
SavedModelTF2Predictor adds no fields. -/
structure PredictorState where
  saved_model_path : String
  timeout : Int
  model : Option LoadedModel
  feature_spec : Option (NamedMap TensorSpec)
  label_spec : Option (NamedMap TensorSpec)

/-- The external environment restore observes: markerAt i tells whether
assets.extra/t2r_assets.pbtxt exists at the i-th poll of the busy-wait
loop; the two spec fields are the result of
tensorspec_utils.load_t2r_assets_to_file followed by
TensorSpecStruct.from_proto (library code outside this module);
loadedModel is what tf.saved_model.load returns. -/
structure World where
  markerAt : Nat → Bool
  assetsFeatureSpec : NamedMap TensorSpec
  assetsLabelSpec : NamedMap TensorSpec
  loadedModel : LoadedModel

/-- SavedModelPredictorBase.assert_is_loaded: raises ValueError when
self._model is None. -/
def assertIsLoaded (p : PredictorState) : Except PyErr Unit :=
  match p.model with
  | none => .error (.valueError "The predictor has not yet been successfully restored.")
  | some _ => .ok ()

/-- SavedModelPredictorBase.get_feature_specification: assert loaded,
then return self._feature_spec as stored.  No field is assigned, so the
post-state is the input state. -/
def get_feature_specification (p : PredictorState) :
    PredictorState × Except PyErr (Option (NamedMap TensorSpec)) :=
  (p,
    match assertIsLoaded p with
    | .error e => .error e
    | .ok _ => .ok p.feature_spec)

/-- SavedModelPredictorBase.get_label_specification: assert loaded, then
return self._label_spec as stored. -/
def get_label_specification (p : PredictorState) :
    PredictorState × Except PyErr (Option (NamedMap TensorSpec)) :=
  (p,
    match assertIsLoaded p with
    | .error e => .error e
    | .ok _ => .ok p.label_spec)

/-- Local helper _maybe_expand_dims inside predict: when the feature
shape equals the spec shape.as_list(), np.expand_dims(f, 0) prepends a
dimension of extent 1; otherwise the feature passes through. -/
def maybeExpandDims (f : TensorLike) (spec : TensorSpec) : TensorLike :=
  if f.shape = spec.shape then { f with shape := some 1 :: f.shape } else f

/-- tf.nest.map_structure over two dict-like structures: the key
sequences must coincide, otherwise the library raises; the function is
applied pointwise to paired values. -/
def mapStructure2 (g : TensorLike → TensorSpec → TensorLike) :
    NamedMap TensorLike → NamedMap TensorSpec → Except PyErr (NamedMap TensorLike)
  | [], [] => .ok []
  | (k, v) :: fs, (k2, s) :: ss =>
      if k = k2 then
        match mapStructure2 g fs ss with
        | .ok rest => .ok ((k, g v s) :: rest)
        | .error e => .error e
      else .error (.typeError "The two structures do not match.")
  | _, _ => .error (.typeError "The two structures do not match.")

/-- SavedModelPredictorBase.predict: assert loaded; map
_maybe_expand_dims over the features and the feature specification; run
the loaded model on the expanded features.  The assert is inlined as the
first match; when the model is loaded but _feature_spec is still None,
tf.nest.map_structure over a dict and None raises (library behavior).
No field is assigned. -/
def predictBase (p : PredictorState) (features : NamedMap TensorLike) :
    PredictorState × Except PyErr (NamedMap TensorLike) :=
  (p,
    match p.model with
    | none => .error (.valueError "The predictor has not yet been successfully restored.")
    | some m =>
      match p.feature_spec with
      | none => .error (.typeError "The two structures do not match.")
      | some fs =>
        match mapStructure2 maybeExpandDims features fs with
        | .ok expanded => .ok (m.pred expanded)
        | .error e => .error e)

/-- Outcome of the busy-wait loop in restore, polling for the marker
file assets.extra/t2r_assets.pbtxt.  The i-th check happens after i
sleeps of 10 seconds, so its guard is 10 * i < timeout.  When the guard
fails the while-else clause returns False (timedOut).  When the marker
exists the loop breaks (found).  When the guard holds and the marker is
missing, the next statement evaluates self._saved_model_dir, an
attribute no __init__ ever assigns (only _saved_model_path exists), so
Python raises AttributeError there; no later poll is ever reached,
which is why this definition needs no recursion. -/
inductive RestoreLoopOutcome where
  | found
  | timedOut
  | attrError
deriving Repr, DecidableEq

/-- One run of the polling loop of SavedModelPredictorBase.restore,
started at poll index i (the code starts it at 0). -/
def restoreLoop (markerAt : Nat → Bool) (timeout : Int) (i : Nat) : RestoreLoopOutcome :=
  if 10 * (i : Int) < timeout then
    if markerAt i then .found else .attrError
  else .timedOut

/-- SavedModelPredictorBase.restore: poll for the marker file; on
timeout log a warning and return False with no field assigned; on the
AttributeError the exception propagates with no field assigned; once the
marker is found, load the t2r assets, assign _feature_spec and
_label_spec from the protos, assign _model from tf.saved_model.load, and
return True. -/
def restoreBase (w : World) (p : PredictorState) :
    PredictorState × Except PyErr Bool :=
  match restoreLoop w.markerAt p.timeout 0 with
  | .timedOut => (p, .ok false)
  | .attrError => (p, .error (.attributeError "'SavedModelPredictorBase' object has no attribute '_saved_model_dir'"))
  | .found =>
    ({ p with
        feature_spec := some w.assetsFeatureSpec,
        label_spec := some w.assetsLabelSpec,
        model := some w.loadedModel }, .ok true)

/-- SavedModelPredictorBase.init_randomly: unconditionally raises
ValueError; no field is assigned. -/
def init_randomly (p : PredictorState) : PredictorState × Except PyErr Unit :=
  (p, .error (.valueError "Random initialization is not supported for SavedModelPredictor."))

/-- SavedModelPredictorBase.close: the body is exactly
assert_is_loaded; no field is assigned. -/
def close (p : PredictorState) : PredictorState × Except PyErr Unit :=
  (p, assertIsLoaded p)

/-- Model of os.path.basename on a POSIX path: the part of the path
after the last slash (empty when the path ends in a slash), computed as
a fold so that everything before each slash is discarded. -/
def basename (s : String) : String :=
  String.mk (s.data.foldl (fun acc c => if c = '/' then [] else acc ++ [c]) [])

/-- Strip leading and trailing whitespace characters, as the Python
builtin int() does on its string argument. -/
def pyStrip (cs : List Char) : List Char :=
  ((cs.dropWhile Char.isWhitespace).reverse.dropWhile Char.isWhitespace).reverse

/-- Decimal value of a run of digit characters. -/
def digitsVal (cs : List Char) : Nat :=
  cs.foldl (fun acc c => acc * 10 + (c.toNat - 48)) 0

/-- Model of the Python builtin int() on a string: surrounding
whitespace is stripped, an optional single sign is allowed, and the
remainder must be a nonempty run of decimal digits; anything else
raises ValueError.  (Digit-group underscores of Python 3.6 are not
modelled; no claim depends on them.)  pySign strips one optional sign
and reports whether it was a minus. -/
def pySign : List Char → Bool × List Char
  | '-' :: rest => (true, rest)
  | '+' :: rest => (false, rest)
  | t => (false, t)

/-- Continuation of the int() model: the sign-stripped remainder must be
a nonempty run of decimal digits. -/
def pyInt (s : String) : Except PyErr Int :=
  let sc := pySign (pyStrip s.data)
  if sc.2 ≠ [] ∧ sc.2.all Char.isDigit then
    .ok (if sc.1 then -(digitsVal sc.2 : Int) else (digitsVal sc.2 : Int))
  else
    .error (.valueError ("invalid literal for int() with base 10: " ++ s))

/-- SavedModelPredictorBase.model_version: assert loaded, then parse
int(os.path.basename(self._saved_model_path)). -/
def model_version (p : PredictorState) : PredictorState × Except PyErr Int :=
  (p,
    match assertIsLoaded p with
    | .error e => .error e
    | .ok _ => pyInt (basename p.saved_model_path))

/-- SavedModelPredictorBase.global_step: assert loaded, then call
self._model.global_step(); the assert is inlined as the match. -/
def global_step (p : PredictorState) : PredictorState × Except PyErr TensorLike :=
  (p,
    match p.model with
    | none => .error (.valueError "The predictor has not yet been successfully restored.")
    | some m => .ok m.globalStepT)

/-- SavedModelPredictorBase.model_path: assert loaded, then return
self._saved_model_path. -/
def model_path (p : PredictorState) : PredictorState × Except PyErr String :=
  (p,
    match assertIsLoaded p with
    | .error e => .error e
    | .ok _ => .ok p.saved_model_path)

/-- SavedModelTF2Predictor.predict: run the base predict, then
tf.nest.map_structure of t.numpy() over the result.  The conversion from
a runtime tensor to a numpy array is runtime behavior, passed in as the
function numpy. -/
def predictTF2 (numpy : TensorLike → TensorLike) (p : PredictorState)
    (features : NamedMap TensorLike) :
    PredictorState × Except PyErr (NamedMap TensorLike) :=
  let r := predictBase p features
  (r.1,
    match r.2 with
    | .ok preds => .ok (preds.map (fun kv => (kv.1, numpy kv.2)))
    | .error e => .error e)

/-- SavedModelTF2Predictor.global_step: assert loaded, then
self._model.global_step().numpy(). -/
def globalStepTF2 (numpy : TensorLike → TensorLike) (p : PredictorState) :
    PredictorState × Except PyErr TensorLike :=
  (p,
    match p.model with
    | none => .error (.valueError "The predictor has not yet been successfully restored.")
    | some m => .ok (numpy m.globalStepT))

/-- The TF1 session object: run stands for self._session.run on the
prediction fetches with the feed dict built by
tensorspec_utils.map_feed_dict from the stored placeholders and the
caller's features, and runTensor for self._session.run on a single
fetched value (library code outside this module, kept opaque). -/
structure Session where
  run : Option (NamedMap TensorLike) → Option (NamedMap TensorLike) →
        NamedMap TensorLike → NamedMap TensorLike
  runTensor : TensorLike → TensorLike

/-- The fields of SavedModelTF1Predictor: the inherited base fields plus
_tf_config, _session (the graph it owns stays inside the opaque
session), _predictions and _features, both initialized to None. -/
structure TF1State where
  base : PredictorState
  tf_config : Option Nat
  session : Session
  predictions : Option (NamedMap TensorLike)
  features : Option (NamedMap TensorLike)

/-- Modelled from the spec: tensorspec_utils.make_placeholders (library
code outside this module) called with batch_size None builds, for each
entry of the feature specification, a placeholder whose shape is the
spec shape with an unknown leading batch dimension prepended. -/
def makePlaceholders (fs : NamedMap TensorSpec) : NamedMap TensorLike :=
  fs.map (fun ks => (ks.1, { shape := none :: ks.2.shape, payload := 0 }))

/-- SavedModelTF1Predictor.predict: assert loaded (on the inherited
fields), then session.run of the stored prediction fetches under the
feed dict built from the stored placeholders and the caller features.
No field is assigned. -/
def predictTF1 (q : TF1State) (features : NamedMap TensorLike) :
    TF1State × Except PyErr (NamedMap TensorLike) :=
  (q,
    match assertIsLoaded q.base with
    | .error e => .error e
    | .ok _ => .ok (q.session.run q.predictions q.features features))

/-- SavedModelTF1Predictor.restore: run the base restore; when it
returns False, return False; when it raises, the exception propagates;
otherwise assign _features from make_placeholders on the loaded feature
spec, assign _predictions from the base predict applied to the
placeholders, initialize variables in the session (a runtime effect with
no counterpart among the modelled fields), and fall off the end of the
body: Python returns None there, not True.  When the loaded feature
spec were None, make_placeholders would raise (dead in reachable
states). -/
def restoreTF1 (w : World) (q : TF1State) :
    TF1State × Except PyErr (Option Bool) :=
  match restoreBase w q.base with
  | (b, .error e) => ({ q with base := b }, .error e)
  | (b, .ok false) => ({ q with base := b }, .ok (some false))
  | (b, .ok true) =>
    match b.feature_spec with
    | none =>
        ({ q with base := b },
          .error (.typeError "make_placeholders expects a TensorSpecStruct."))
    | some fs =>
      match predictBase b (makePlaceholders fs) with
      | (_, .error e) =>
          ({ q with
             base := b,
             features := some (makePlaceholders fs) },
            .error e)
      | (_, .ok preds) =>
          ({ q with
             base := b,
             features := some (makePlaceholders fs),
             predictions := some preds },
            .ok none)

/-- SavedModelTF1Predictor.global_step: the base global_step property
getter runs first (assert loaded, call self._model.global_step()); the
source then applies a call to that value and hands the result to
self._session.run, both absorbed into the opaque runTensor. -/
def globalStepTF1 (q : TF1State) : TF1State × Except PyErr TensorLike :=
  (q,
    match (global_step q.base).2 with
    | .error e => .error e
    | .ok t => .ok (q.session.runTensor t))

/-- SavedModelTF1Predictor.close is inherited from the base:
assert_is_loaded on the shared fields; no field is assigned. -/
def closeTF1 (q : TF1State) : TF1State × Except PyErr Unit :=
  (q, assertIsLoaded q.base)

/-- SavedModelTF1Predictor.init_randomly is inherited from the base:
unconditionally raises ValueError. -/
def initRandomlyTF1 (q : TF1State) : TF1State × Except PyErr Unit :=
  (q, .error (.valueError "Random initialization is not supported for SavedModelPredictor."))

/-! Concrete sample objects used to instantiate the theorems. -/

/-- The ValueError raised by assert_is_loaded. -/
def errNotRestored : PyErr :=
  .valueError "The predictor has not yet been successfully restored."

/-- A sample loaded-model handle whose predict is the identity. -/
def sampleModel : LoadedModel :=
  { pred := fun l => l, globalStepT := { shape := [], payload := 7 } }

/-- A freshly constructed base predictor (state after __init__). -/
def sampleUnloaded : PredictorState :=
  { saved_model_path := "/models/17", timeout := 600,
    model := none, feature_spec := none, label_spec := none }

/-- A sample feature specification with one entry. -/
def sampleFSpec : NamedMap TensorSpec := [("x", { shape := [some 2] })]

/-- A sample label specification with one entry. -/
def sampleLSpec : NamedMap TensorSpec := [("y", { shape := [some 1] })]

/-- A base predictor in the loaded state. -/
def sampleLoaded : PredictorState :=
  { sampleUnloaded with
    model := some sampleModel,
    feature_spec := some sampleFSpec,
    label_spec := some sampleLSpec }

/-- A sample TF1 session that feeds the features through. -/
def sampleSession : Session :=
  { run := fun _ _ f => f, runTensor := fun t => t }

/-- A freshly constructed TF1 predictor. -/
def sampleTF1Unloaded : TF1State :=
  { base := sampleUnloaded, tf_config := none, session := sampleSession,
    predictions := none, features := none }

/-- A TF1 predictor whose inherited fields are in the loaded state. -/
def sampleTF1Loaded : TF1State :=
  { sampleTF1Unloaded with base := sampleLoaded }

/-- A world where the marker file is present at every poll. -/
def sampleWorld : World :=
  { markerAt := fun _ => true, assetsFeatureSpec := sampleFSpec,
    assetsLabelSpec := sampleLSpec, loadedModel := sampleModel }

/-- A world where the marker file never appears. -/
def noMarkerWorld : World :=
  { sampleWorld with markerAt := fun _ => false }

/-- A base predictor constructed with timeout 0. -/
def sampleZeroTimeout : PredictorState :=
  { sampleUnloaded with timeout := 0 }

/-- A TF1 predictor constructed with timeout 0. -/
def sampleTF1ZeroTimeout : TF1State :=
  { sampleTF1Unloaded with base := sampleZeroTimeout }

/-! Claims. -/

/-- C1: on any predictor of either variant whose model handle is still
None (restore has not succeeded), predict, get_feature_specification,
get_label_specification, model_version, global_step and model_path all
fail with the not-restored ValueError, and the post-state equals the
pre-state on every field. -/
theorem claim1_use_before_load (p : PredictorState) (q : TF1State)
    (f : NamedMap TensorLike) (numpy : TensorLike → TensorLike)
    (hp : p.model = none) (hq : q.base.model = none) :
    predictBase p f = (p, .error errNotRestored) ∧
    get_feature_specification p = (p, .error errNotRestored) ∧
    get_label_specification p = (p, .error errNotRestored) ∧
    model_version p = (p, .error errNotRestored) ∧
    global_step p = (p, .error errNotRestored) ∧
    model_path p = (p, .error errNotRestored) ∧
    predictTF2 numpy p f = (p, .error errNotRestored) ∧
    globalStepTF2 numpy p = (p, .error errNotRestored) ∧
    predictTF1 q f = (q, .error errNotRestored) ∧
    globalStepTF1 q = (q, .error errNotRestored) := by
  refine ⟨?_, ?_, ?_, ?_, ?_, ?_, ?_, ?_, ?_, ?_⟩ <;>
    simp [predictBase, get_feature_specification, get_label_specification,
      model_version, global_step, model_path, predictTF2, globalStepTF2,
      predictTF1, globalStepTF1, assertIsLoaded, hp, hq, errNotRestored]

/-- C1 witness: a freshly constructed predictor rejects predict. -/
theorem claim1_witness :
    predictBase sampleUnloaded [] = (sampleUnloaded, .error errNotRestored) :=
  (claim1_use_before_load sampleUnloaded sampleTF1Unloaded []
    (fun t => t) rfl rfl).1

/-- C7: init_randomly raises the unsupported-operation ValueError on
every predictor state of either variant, loaded or not, and changes no
field. -/
theorem claim7_init_randomly (p : PredictorState) (q : TF1State) :
    init_randomly p =
      (p, .error (.valueError "Random initialization is not supported for SavedModelPredictor.")) ∧
    initRandomlyTF1 q =
      (q, .error (.valueError "Random initialization is not supported for SavedModelPredictor.")) :=
  ⟨rfl, rfl⟩

/-- C5: on a loaded predictor of either variant, close succeeds and the
post-state equals the pre-state on every field, so the model handle is
still the same non-None value and predict and a second close behave
exactly as before the close. -/
theorem claim5_close_frame (p : PredictorState) (q : TF1State)
    (m m2 : LoadedModel) (f : NamedMap TensorLike)
    (hp : p.model = some m) (hq : q.base.model = some m2) :
    close p = (p, .ok ()) ∧
    (close p).1.model = some m ∧
    predictBase (close p).1 f = predictBase p f ∧
    close (close p).1 = (p, .ok ()) ∧
    model_version (close p).1 = model_version p ∧
    global_step (close p).1 = global_step p ∧
    closeTF1 q = (q, .ok ()) ∧
    (closeTF1 q).1.base.model = some m2 ∧
    predictTF1 (closeTF1 q).1 f = predictTF1 q f ∧
    closeTF1 (closeTF1 q).1 = (q, .ok ()) := by
  refine ⟨?_, ?_, ?_, ?_, ?_, ?_, ?_, ?_, ?_, ?_⟩ <;>
    simp [close, closeTF1, assertIsLoaded, hp, hq]

/-- C5 witness: close on a concrete loaded predictor is the identity on
the state and succeeds. -/
theorem claim5_witness :
    close sampleLoaded = (sampleLoaded, .ok ()) :=
  (claim5_close_frame sampleLoaded sampleTF1Loaded sampleModel sampleModel
    [] rfl rfl).1

/-- Characterize the successful base restore: restore returns True
exactly when it found the marker, and then the post-state is the
pre-state with the two specifications and the model handle populated
from the export. -/
theorem restoreBase_ok_true {w : World} {p b : PredictorState}
    (h : restoreBase w p = (b, .ok true)) :
    b = { p with
          feature_spec := some w.assetsFeatureSpec,
          label_spec := some w.assetsLabelSpec,
          model := some w.loadedModel } := by
  unfold restoreBase at h
  cases hL : restoreLoop w.markerAt p.timeout 0 <;> rw [hL] at h <;>
    simp_all [Prod.mk.injEq]

/-- C6: close before a successful restore raises the not-restored
ValueError; after a successful restore (either variant) close returns
without raising. -/
theorem claim6_close_states (p p2 p' : PredictorState) (q2 q' : TF1State)
    (w w2 : World) (hp : p.model = none) :
    close p = (p, .error errNotRestored) ∧
    (restoreBase w p2 = (p', .ok true) → close p' = (p', .ok ())) ∧
    (restoreTF1 w2 q2 = (q', .ok none) → closeTF1 q' = (q', .ok ())) := by
  refine ⟨?_, ?_, ?_⟩
  · simp [close, assertIsLoaded, hp, errNotRestored]
  · intro h
    have hb := restoreBase_ok_true h
    subst hb
    simp [close, assertIsLoaded]
  · intro h
    unfold restoreTF1 at h
    split at h
    next b e heq => simp at h
    next b heq => simp at h
    next b heq =>
      have hb := restoreBase_ok_true heq
      split at h
      next hfs => simp at h
      next fs hfs =>
        split at h
        next b2 e hP => simp at h
        next b2 preds hP =>
          simp only [Prod.mk.injEq] at h
          have hq' : q' = { q2 with
              base := b,
              features := some (makePlaceholders fs),
              predictions := some preds } := h.1.symm
          subst hq'
          simp [closeTF1, assertIsLoaded, hb]

/-- C6 witness: on a concrete predictor with the marker present at the
first poll, restore succeeds and close then returns without raising. -/
theorem claim6_witness :
    close { sampleUnloaded with
            feature_spec := some sampleFSpec,
            label_spec := some sampleLSpec,
            model := some sampleModel } =
      ({ sampleUnloaded with
         feature_spec := some sampleFSpec,
         label_spec := some sampleLSpec,
         model := some sampleModel }, .ok ()) :=
  (claim6_close_states sampleUnloaded sampleUnloaded
      { sampleUnloaded with
        feature_spec := some sampleFSpec,
        label_spec := some sampleLSpec,
        model := some sampleModel }
      sampleTF1Unloaded sampleTF1Unloaded sampleWorld sampleWorld rfl).2.1 rfl

/-- C9: a predictor (either variant) constructed with a non-positive
timeout fails the loop guard at the very first poll, so restore returns
False for every world, in particular worlds where the marker file is
present from the start, and the state is unchanged. -/
theorem claim9_nonpositive_timeout (p : PredictorState) (q : TF1State)
    (w w2 : World) (hp : p.timeout ≤ 0) (hq : q.base.timeout ≤ 0) :
    restoreBase w p = (p, .ok false) ∧
    restoreTF1 w2 q = (q, .ok (some false)) := by
  have hL : restoreLoop w.markerAt p.timeout 0 = .timedOut := by
    unfold restoreLoop
    rw [if_neg]
    push_cast
    omega
  have hL2 : restoreLoop w2.markerAt q.base.timeout 0 = .timedOut := by
    unfold restoreLoop
    rw [if_neg]
    push_cast
    omega
  have hB : restoreBase w p = (p, .ok false) := by
    unfold restoreBase; rw [hL]
  have hB2 : restoreBase w2 q.base = (q.base, .ok false) := by
    unfold restoreBase; rw [hL2]
  refine ⟨hB, ?_⟩
  unfold restoreTF1
  rw [hB2]

/-- C9 witness: with timeout 0 and a world whose marker file is present
from the very first poll, restore still returns False. -/
theorem claim9_witness :
    restoreBase sampleWorld sampleZeroTimeout = (sampleZeroTimeout, .ok false) :=
  (claim9_nonpositive_timeout sampleZeroTimeout sampleTF1ZeroTimeout
    sampleWorld sampleWorld (by decide) (by decide)).1

/-- C2: evaluation at the failing input.  On a freshly constructed
predictor with the default timeout of 600 and a marker file that never
appears, restore does not return False: the first poll finds the file
missing and the logging statement then reads self._saved_model_dir, an
attribute that no __init__ assigns, so restore raises AttributeError
(the state is still unchanged). -/
theorem claim2_restore_raises_attribute_error :
    restoreBase noMarkerWorld sampleUnloaded =
      (sampleUnloaded,
        .error (.attributeError
          "'SavedModelPredictorBase' object has no attribute '_saved_model_dir'")) :=
  rfl

/-- C3: evaluation at the failing input.  On a TF1 predictor with the
marker file present at the first poll, restore populates the feature
specification, the label specification, the model handle, the
placeholders and the prediction fetches, but its body has no return
statement on the success path, so it returns None (falsy) instead of
True. -/
theorem claim3_tf1_restore_returns_none :
    restoreTF1 sampleWorld sampleTF1Unloaded =
      ({ sampleTF1Unloaded with
         base := { sampleUnloaded with
                   feature_spec := some sampleFSpec,
                   label_spec := some sampleLSpec,
                   model := some sampleModel },
         features := some [("x", { shape := [none, some 2], payload := 0 })],
         predictions := some [("x", { shape := [none, some 2], payload := 0 })] },
        .ok none) :=
  rfl

/-- Helper for C10: pyInt raises only ValueError. -/
theorem pyInt_error_is_valueError (s : String) (e : PyErr)
    (h : pyInt s = .error e) : ∃ msg, e = .valueError msg := by
  unfold pyInt at h
  dsimp only at h
  split at h
  · simp at h
  · refine ⟨"invalid literal for int() with base 10: " ++ s, ?_⟩
    injection h with h2
    exact h2.symm

/-- C10: on a loaded predictor, model_version parses the last path
component of the saved-model path as a decimal integer, and when that
component is not a valid integer literal the parse raises a ValueError
instead of returning a value. -/
theorem claim10_model_version (p : PredictorState) (m : LoadedModel)
    (hm : p.model = some m) :
    model_version p = (p, pyInt (basename p.saved_model_path)) ∧
    ((¬ ∃ v, pyInt (basename p.saved_model_path) = .ok v) →
      ∃ msg, (model_version p).2 = .error (.valueError msg)) := by
  have h1 : model_version p = (p, pyInt (basename p.saved_model_path)) := by
    simp [model_version, assertIsLoaded, hm]
  refine ⟨h1, ?_⟩
  intro hno
  rcases hV : pyInt (basename p.saved_model_path) with e | v
  · rcases pyInt_error_is_valueError _ _ hV with ⟨msg, hmsg⟩
    exact ⟨msg, by rw [h1]; simp [hV, hmsg]⟩
  · exact absurd ⟨v, hV⟩ hno

/-- C10 witness: the sample loaded predictor at path /models/17 reports
model version 17. -/
theorem claim10_witness :
    model_version sampleLoaded = (sampleLoaded, .ok 17) := by
  have h := (claim10_model_version sampleLoaded sampleModel rfl).1
  rw [h]
  rfl

/-- The list that tf.nest.map_structure(_maybe_expand_dims, features,
spec) produces when the two structures match: pointwise application on
paired values, keys taken from the features. -/
def expandedFeatures (f : NamedMap TensorLike) (fs : NamedMap TensorSpec) :
    NamedMap TensorLike :=
  List.zipWith (fun a b => (a.1, maybeExpandDims a.2 b.2)) f fs

/-- mapStructure2 succeeds exactly as the pointwise zip when the key
sequences coincide. -/
theorem mapStructure2_ok (g : TensorLike → TensorSpec → TensorLike) :
    ∀ (f : NamedMap TensorLike) (fs : NamedMap TensorSpec),
      f.map Prod.fst = fs.map Prod.fst →
      mapStructure2 g f fs =
        .ok (List.zipWith (fun a b => (a.1, g a.2 b.2)) f fs) := by
  intro f
  induction f with
  | nil =>
    intro fs hk
    cases fs with
    | nil => rfl
    | cons b bs => simp at hk
  | cons a as ih =>
    intro fs hk
    cases fs with
    | nil => simp at hk
    | cons b bs =>
      simp only [List.map_cons, List.cons.injEq] at hk
      rcases a with ⟨k, v⟩
      rcases b with ⟨k2, s⟩
      simp only at hk
      unfold mapStructure2
      rw [if_pos hk.1, ih bs hk.2]
      rfl

/-- getElem? commutes with zipWith when both indices are in range. -/
theorem zipWith_getElem?_some {α β γ : Type} (g : α → β → γ) :
    ∀ (l1 : List α) (l2 : List β) (i : Nat) (a : α) (b : β),
      l1[i]? = some a → l2[i]? = some b →
      (List.zipWith g l1 l2)[i]? = some (g a b) := by
  intro l1
  induction l1 with
  | nil => intro l2 i a b h1 _; simp at h1
  | cons x xs ih =>
    intro l2 i a b h1 h2
    cases l2 with
    | nil => simp at h2
    | cons y ys =>
      cases i with
      | zero =>
        simp only [List.getElem?_cons_zero, Option.some.injEq] at h1 h2
        simp [List.zipWith, h1, h2]
      | succ n =>
        simp only [List.getElem?_cons_succ] at h1 h2
        simpa [List.zipWith] using ih ys n a b h1 h2

/-- zipWith of the key-preserving function keeps the key sequence when
the two lists have equal length. -/
theorem expandedFeatures_keys :
    ∀ (f : NamedMap TensorLike) (fs : NamedMap TensorSpec),
      f.length = fs.length →
      (expandedFeatures f fs).map Prod.fst = f.map Prod.fst := by
  intro f
  induction f with
  | nil => intro fs _; rfl
  | cons a as ih =>
    intro fs hl
    cases fs with
    | nil => simp at hl
    | cons b bs =>
      simp only [List.length_cons, Nat.succ.injEq] at hl
      simp [expandedFeatures, List.zipWith] at ih ⊢
      exact ih bs hl

/-- C4: on a loaded predictor whose feature specification is populated
and a feature mapping with the specification's key sequence, predict
delegates to the runtime the pointwise-expanded features: the keys are
unchanged, a tensor whose shape equals the per-example spec shape is
delegated with a leading dimension of extent 1 prepended and its
contents unchanged, and a tensor whose shape differs from the spec
shape is delegated unchanged. -/
theorem claim4_predict_expands (p : PredictorState) (m : LoadedModel)
    (fs : NamedMap TensorSpec) (f : NamedMap TensorLike)
    (hm : p.model = some m) (hf : p.feature_spec = some fs)
    (hk : f.map Prod.fst = fs.map Prod.fst) :
    predictBase p f = (p, .ok (m.pred (expandedFeatures f fs))) ∧
    (expandedFeatures f fs).map Prod.fst = f.map Prod.fst ∧
    (∀ (i : Nat) (k : String) (t : TensorLike) (s : TensorSpec),
      f[i]? = some (k, t) → (fs[i]?).map Prod.snd = some s →
      ((t.shape = s.shape →
          (expandedFeatures f fs)[i]? =
            some (k, { shape := some 1 :: t.shape, payload := t.payload })) ∧
       (t.shape ≠ s.shape →
          (expandedFeatures f fs)[i]? = some (k, t)))) := by
  refine ⟨?_, ?_, ?_⟩
  · simp [predictBase, hm, hf, mapStructure2_ok maybeExpandDims f fs hk,
      expandedFeatures]
  · exact expandedFeatures_keys f fs (by
      have := congrArg List.length hk
      simpa using this)
  · intro i k t s h1 h2
    rcases h2' : fs[i]? with _ | ks
    · rw [h2'] at h2; simp at h2
    · rw [h2'] at h2
      simp at h2
      have hz := zipWith_getElem?_some
        (fun (a : String × TensorLike) (b : String × TensorSpec) =>
          (a.1, maybeExpandDims a.2 b.2)) f fs i (k, t) ks h1 h2'
      constructor
      · intro hsh
        rw [expandedFeatures, hz]
        simp [maybeExpandDims, h2, hsh]
      · intro hsh
        rw [expandedFeatures, hz]
        simp [maybeExpandDims, h2, hsh]

/-- C4 witness: a concrete feature of per-example shape [2] against a
spec shape [2] is delegated with shape [1, 2]. -/
theorem claim4_witness :
    predictBase sampleLoaded [("x", { shape := [some 2], payload := 5 })] =
      (sampleLoaded, .ok [("x", { shape := [some 1, some 2], payload := 5 })]) :=
  ((claim4_predict_expands sampleLoaded sampleModel sampleFSpec
      [("x", { shape := [some 2], payload := 5 })] rfl rfl rfl).1).trans rfl

/-- C8: on a loaded predictor whose base predict succeeds, the TF2
variant returns the base result with the runtime numpy conversion
applied to every output tensor, the key structure of the output mapping
is preserved, and the TF2 global_step is the numpy conversion of the
step counter the base property reads from the runtime. -/
theorem claim8_tf2_numpy (numpy : TensorLike → TensorLike)
    (p : PredictorState) (f : NamedMap TensorLike) (m : LoadedModel)
    (preds : NamedMap TensorLike)
    (hm : p.model = some m) (hp : (predictBase p f).2 = .ok preds) :
    predictTF2 numpy p f = (p, .ok (preds.map (fun kv => (kv.1, numpy kv.2)))) ∧
    (preds.map (fun kv => (kv.1, numpy kv.2))).map Prod.fst =
      preds.map Prod.fst ∧
    globalStepTF2 numpy p = (p, .ok (numpy m.globalStepT)) ∧
    (global_step p).2 = .ok m.globalStepT := by
  refine ⟨?_, ?_, ?_, ?_⟩
  · have h1 : (predictBase p f).1 = p := rfl
    simp [predictTF2, hp, h1]
  · simp [List.map_map]
  · simp [globalStepTF2, hm]
  · simp [global_step, hm]

/-- C8 witness: on the concrete loaded predictor, the TF2 predict
applies the concrete numpy conversion to the single output tensor. -/
theorem claim8_witness :
    predictTF2 (fun t => { shape := t.shape, payload := t.payload + 100 })
        sampleLoaded [("x", { shape := [some 2], payload := 5 })] =
      (sampleLoaded, .ok [("x", { shape := [some 1, some 2], payload := 105 })]) :=
  ((claim8_tf2_numpy (fun t => { shape := t.shape, payload := t.payload + 100 })
      sampleLoaded [("x", { shape := [some 2], payload := 5 })] sampleModel
      [("x", { shape := [some 1, some 2], payload := 5 })] rfl rfl).1).trans rfl

end T2R
